import Mathlib

/-!
Verification development for the wavespeed-cli repository.

Shallow embedding of the model-resolution engine, the task polling loops,
the operation orchestrators and the two-tier model metadata cache, with
theorems settling the specification claims about them.
-/

set_option autoImplicit false

namespace Wavespeed

/-! ## Task data (src/api/types.ts) -/

/-- Timings record carried by a task response. -/
structure Timings where
  inference : Option Nat := none
  deriving Repr, DecidableEq

/-- TaskData: one remote job record, as returned by the result endpoint. -/
structure TaskData where
  id : String
  status : String
  outputs : Option (List String) := none
  error : Option String := none
  has_nsfw_contents : Option (List Bool) := none
  timings : Option Timings := none
  deriving Repr, DecidableEq

/-! ## Polling, variant A (src/utils/images.ts pollUntilDone, and the first
pollUntilDone of src/utils/polling.ts).

The loop repeatedly checks the wall clock, fetches the task record, and
returns it when its status is "succeeded" or "failed"; otherwise it sleeps
for intervalMs and repeats.  The embedding abstracts getResult into
`fetch : Nat → TaskData` (the record returned by the i-th fetch) and the
clock into `elapsed : Nat → Nat` (Date.now() - start at the top of the
i-th loop iteration).  Fuel bounds the recursion; `none` means the fuel
ran out before the loop settled. -/

/-- Terminal-status check of variant A: status is "succeeded" or "failed". -/
def terminalStatusA (s : String) : Bool :=
  s == "succeeded" || s == "failed"

/-- The timeout message thrown by variant A; it embeds the request id. -/
def timeoutMsgA (maxDurationMs : Nat) (requestId : String) : String :=
  ("Polling timed out after " ++ toString maxDurationMs ++ "ms for request ") ++ requestId

/-- Outcome of the variant A loop: a returned record together with the
number of fetches performed, or a thrown timeout carrying its message and
the number of fetches performed before the abort. -/
inductive PollOutcomeA where
  | done (d : TaskData) (fetches : Nat)
  | timedOut (msg : String) (fetches : Nat)
  deriving Repr, DecidableEq

/-- The variant A loop.  The second Nat argument is the current loop
iteration (equal to the number of fetches already performed). -/
def pollLoopA (fetch : Nat → TaskData) (elapsed : Nat → Nat) (requestId : String)
    (maxDurationMs : Nat) : Nat → Nat → Option PollOutcomeA
  | 0, _ => none
  | fuel + 1, i =>
    if elapsed i > maxDurationMs then
      some (PollOutcomeA.timedOut (timeoutMsgA maxDurationMs requestId) i)
    else if terminalStatusA (fetch i).status then
      some (PollOutcomeA.done (fetch i) (i + 1))
    else
      pollLoopA fetch elapsed requestId maxDurationMs fuel (i + 1)

/-- Variant A entry point (iteration counter starts at 0). -/
def pollUntilDoneA (fetch : Nat → TaskData) (elapsed : Nat → Nat) (requestId : String)
    (maxDurationMs fuel : Nat) : Option PollOutcomeA :=
  pollLoopA fetch elapsed requestId maxDurationMs fuel 0

/-! ## Polling, variant B (the second pollUntilDone of src/utils/polling.ts).

This variant treats "completed" or "failed" as terminal, and adds a
network-retry policy: a fetch that throws increments netErrors, re-raises
the error once netErrors exceeds maxNetRetries, and otherwise sleeps
interval * min(4, netErrors) before retrying; a successful non-terminal
poll sleeps interval and resets netErrors to 0.  Its timeout message is
the constant "Polling timed out" (the task id is not part of it).  The
run returns the result together with the list of sleeps performed, so
that the wait policy is observable. -/

/-- Terminal-status check of variant B: status is "completed" or "failed". -/
def terminalStatusB (s : String) : Bool :=
  s == "completed" || s == "failed"

/-- Result of one getResult call: the parsed record, or a thrown error. -/
inductive FetchResult where
  | ok (d : TaskData)
  | err (e : String)
  deriving Repr, DecidableEq

/-- Loop state of variant B: the network-error counter and the iteration
index (one fetch is attempted per iteration). -/
structure PollStateB where
  netErrors : Nat
  i : Nat
  deriving Repr, DecidableEq

/-- The variant B loop.  Returns the outcome (returned record or raised
error message) paired with the list of sleep durations performed, or
`none` if the fuel ran out first. -/
def pollRunB (fetch : Nat → FetchResult) (elapsed : Nat → Nat)
    (interval timeout maxNetRetries : Nat) : PollStateB → Nat → Option (Except String TaskData × List Nat)
  | _, 0 => none
  | s, fuel + 1 =>
    if elapsed s.i > timeout then
      some (Except.error "Polling timed out", [])
    else
      match fetch s.i with
      | FetchResult.ok d =>
        if terminalStatusB d.status then
          some (Except.ok d, [])
        else
          (pollRunB fetch elapsed interval timeout maxNetRetries ⟨0, s.i + 1⟩ fuel).map
            fun p => (p.1, interval :: p.2)
      | FetchResult.err e =>
        if s.netErrors + 1 > maxNetRetries then
          some (Except.error e, [])
        else
          (pollRunB fetch elapsed interval timeout maxNetRetries ⟨s.netErrors + 1, s.i + 1⟩ fuel).map
            fun p => (p.1, interval * min 4 (s.netErrors + 1) :: p.2)

/-- Variant B entry point: netErrors starts at 0, iteration at 0. -/
def pollUntilDoneB (fetch : Nat → FetchResult) (elapsed : Nat → Nat)
    (interval timeout maxNetRetries fuel : Nat) : Option (Except String TaskData × List Nat) :=
  pollRunB fetch elapsed interval timeout maxNetRetries ⟨0, 0⟩ fuel

/-! ## Model resolution (src/config/models.ts, src/config/registry.ts,
src/config/types.ts).

The process environment is embedded as a function from variable names to
optional values.  JavaScript truthiness checks on optional strings (an
absent value and the empty string are both falsy) are embedded by
`optStr`. -/

/-- Extra request parameters of a configured model (src/config/types.ts). -/
structure RequestDefaults where
  temperature : Option Int := none
  maxTokens : Option Nat := none
  extraParams : List (String × String) := []
  timeoutMs : Option Nat := none
  deriving Repr, DecidableEq

/-- ModelConfig: one user-defined model alias from the configuration. -/
structure ModelConfig where
  provider : String
  apiBaseUrl : Option String := none
  apiKeyEnv : Option String := none
  modelName : Option String := none
  type : Option String := none
  requestDefaults : Option RequestDefaults := none
  deriving Repr, DecidableEq

/-- DefaultsConfig: default-selection rules of the configuration. -/
structure DefaultsConfig where
  globalModel : Option String := none
  commands : List (String × String) := []
  deriving Repr, DecidableEq

/-- WavespeedConfig: the parsed configuration object. -/
structure WavespeedConfig where
  models : List (String × ModelConfig) := []
  defaults : Option DefaultsConfig := none
  deriving Repr, DecidableEq

/-- ResolvedModel: the fully resolved model descriptor. -/
structure ResolvedModel where
  id : String
  provider : String
  apiBaseUrl : String
  apiKey : String
  apiKeyEnv : String
  modelName : Option String := none
  type : String
  requestDefaults : RequestDefaults := {}
  isFromConfig : Bool
  deriving Repr, DecidableEq

/-- ConfigError: the typed error thrown by the resolver, carrying the
message and the numeric exit hint. -/
structure ConfigError where
  message : String
  exitCode : Nat
  deriving Repr, DecidableEq

/-- RegistryModel: one built-in catalogue entry (src/config/registry.ts). -/
structure RegistryModel where
  id : String
  name : String
  provider : String
  modelName : String
  apiBaseUrl : Option String := none
  capabilities : List String := []
  isRecommended : Bool := false
  deriving Repr, DecidableEq

/-- The static built-in model registry. -/
def MODEL_REGISTRY : List RegistryModel :=
  [ { id := "seedream-v4", name := "Bytedance Seedream V4", provider := "wavespeed",
      modelName := "bytedance/seedream-v4",
      capabilities := ["image", "edit", "sequential"], isRecommended := true },
    { id := "seedream-v3.1", name := "Bytedance Seedream V3.1", provider := "wavespeed",
      modelName := "bytedance/seedream-v3.1", capabilities := ["image"] } ]

/-- Registry lookup by id (first entry with a matching id). -/
def getRegistryModel (id : String) : Option RegistryModel :=
  MODEL_REGISTRY.find? fun m => m.id == id

/-- JavaScript truthiness of an optional string: an absent value and the
empty string are falsy; any other string is kept. -/
def optStr : Option String → Option String
  | none => none
  | some s => if s == "" then none else some s

/-- A single quote character, used inside resolver error messages. -/
def sq : String := Char.toString (Char.ofNat 39)

/-- Message of the unknown-explicit-model error (exit 3). -/
def unknownModelMsg (id : String) : String :=
  "Unknown model " ++ sq ++ id ++ sq ++ ". Use --list-models to see available models."

/-- Message of the invalid command-default error (exit 3). -/
def invalidCommandDefaultMsg (commandName id : String) : String :=
  "Invalid config: defaults.commands." ++ commandName ++ " refers to unknown model " ++
    sq ++ id ++ sq ++ "."

/-- Message of the invalid global-default error (exit 3). -/
def invalidGlobalDefaultMsg (id : String) : String :=
  "Invalid config: defaults.globalModel " ++ sq ++ id ++ sq ++ " does not exist in models."

/-- Message of the missing built-in secret error (exit 2). -/
def missingSecretMsg : String :=
  "Missing WAVESPEED_API_KEY for default Wavespeed model."

/-- The built-in fallback descriptor, completed with the api key read from
the environment. -/
def builtinModel (apiKey : String) : ResolvedModel :=
  { id := "seedream-v4", provider := "wavespeed", apiBaseUrl := "https://api.wavespeed.ai",
    apiKey := apiKey, apiKeyEnv := "WAVESPEED_API_KEY",
    modelName := some "bytedance/seedream-v4", type := "image",
    requestDefaults := {}, isFromConfig := false }

/-- Normalization of one model entry, mirroring resolveFromConfigModel:
default apiKeyEnv and apiBaseUrl for the wavespeed provider, require them
otherwise, then read the secret from the environment. -/
def resolveFromConfigModel (env : String → Option String) (id : String)
    (model : ModelConfig) : Except ConfigError ResolvedModel :=
  let keyEnvStep : Except ConfigError String :=
    match optStr model.apiKeyEnv with
    | some e => Except.ok e
    | none =>
      if model.provider == "wavespeed" then Except.ok "WAVESPEED_API_KEY"
      else Except.error ⟨"Model " ++ sq ++ id ++ sq ++ " is missing apiKeyEnv.", 3⟩
  match keyEnvStep with
  | Except.error e => Except.error e
  | Except.ok apiKeyEnv =>
    match optStr (env apiKeyEnv) with
    | none =>
      Except.error ⟨"Environment variable " ++ sq ++ apiKeyEnv ++ sq ++
        " is not set for model " ++ sq ++ id ++ sq ++ ".", 2⟩
    | some apiKey =>
      let baseUrlStep : Except ConfigError String :=
        match optStr model.apiBaseUrl with
        | some u => Except.ok u
        | none =>
          if model.provider == "wavespeed" then Except.ok "https://api.wavespeed.ai"
          else Except.error ⟨"Model " ++ sq ++ id ++ sq ++ " is missing apiBaseUrl.", 3⟩
      match baseUrlStep with
      | Except.error e => Except.error e
      | Except.ok apiBaseUrl =>
        Except.ok
          { id := id, provider := model.provider, apiBaseUrl := apiBaseUrl,
            apiKey := apiKey, apiKeyEnv := apiKeyEnv, modelName := model.modelName,
            type := model.type.getD "image",
            requestDefaults := model.requestDefaults.getD {}, isFromConfig := true }

/-- Temporary model entry constructed from a registry model (each lookup
level builds it with apiKeyEnv defaulted to WAVESPEED_API_KEY). -/
def configFromRegistry (rm : RegistryModel) : ModelConfig :=
  { provider := rm.provider, apiBaseUrl := rm.apiBaseUrl,
    apiKeyEnv := some "WAVESPEED_API_KEY", modelName := some rm.modelName }

/-- The model resolver (resolveModel of src/config/models.ts): explicit
flag, then command default, then global default (each looked up first in
the config alias map, then in the registry), then the built-in fallback. -/
def resolveModel (env : String → Option String) (commandName : String)
    (cliModelFlag : Option String) (config : Option WavespeedConfig) :
    Except ConfigError ResolvedModel :=
  match optStr cliModelFlag with
  | some flag =>
    match config.bind fun c => c.models.lookup flag with
    | some mc => resolveFromConfigModel env flag mc
    | none =>
      match getRegistryModel flag with
      | some rm => resolveFromConfigModel env flag (configFromRegistry rm)
      | none => Except.error ⟨unknownModelMsg flag, 3⟩
  | none =>
    match optStr ((config.bind fun c => c.defaults).bind fun d => d.commands.lookup commandName) with
    | some cmdId =>
      match config.bind fun c => c.models.lookup cmdId with
      | some mc => resolveFromConfigModel env cmdId mc
      | none =>
        match getRegistryModel cmdId with
        | some rm => resolveFromConfigModel env cmdId (configFromRegistry rm)
        | none => Except.error ⟨invalidCommandDefaultMsg commandName cmdId, 3⟩
    | none =>
      match optStr ((config.bind fun c => c.defaults).bind fun d => d.globalModel) with
      | some gid =>
        match config.bind fun c => c.models.lookup gid with
        | some mc => resolveFromConfigModel env gid mc
        | none =>
          match getRegistryModel gid with
          | some rm => resolveFromConfigModel env gid (configFromRegistry rm)
          | none => Except.error ⟨invalidGlobalDefaultMsg gid, 3⟩
      | none =>
        match optStr (env "WAVESPEED_API_KEY") with
        | none => Except.error ⟨missingSecretMsg, 2⟩
        | some apiKey => Except.ok (builtinModel apiKey)

/-! ## Operation orchestrators (src/core operations: generateImage,
editImage, generateSequential, editSequential).

submitTask and pollUntilDone are embedded as function parameters whose
thrown exceptions appear as `Except.error`; the try/catch of each
orchestrator corresponds to the error branches below.  The payload is one
structure with optional fields for the per-operation extras. -/

/-- Wire payload built by the orchestrators. -/
structure Payload where
  prompt : String
  size : String
  enable_base64_output : Bool
  enable_sync_mode : Bool
  model : String
  images : Option (List String) := none
  max_images : Option Nat := none
  deriving Repr, DecidableEq

/-- OperationResult: the uniform output of every orchestrator. -/
structure OperationResult where
  success : Bool
  taskId : String
  status : String
  outputs : List String
  timingMs : Option Nat := none
  hasNsfw : Option (List Bool) := none
  error : Option String := none
  deriving Repr, DecidableEq

/-- Parameters of generateImage. -/
structure GenerateParams where
  prompt : String
  size : Option String := none
  base64Output : Option Bool := none
  syncMode : Option Bool := none
  model : ResolvedModel
  deriving Repr, DecidableEq

/-- Parameters of editImage. -/
structure EditParams where
  prompt : String
  size : Option String := none
  base64Output : Option Bool := none
  syncMode : Option Bool := none
  model : ResolvedModel
  images : List String
  deriving Repr, DecidableEq

/-- Parameters of generateSequential. -/
structure GenerateSequentialParams where
  prompt : String
  size : Option String := none
  base64Output : Option Bool := none
  syncMode : Option Bool := none
  model : ResolvedModel
  maxImages : Option Nat := none
  deriving Repr, DecidableEq

/-- Parameters of editSequential. -/
structure EditSequentialParams where
  prompt : String
  size : Option String := none
  base64Output : Option Bool := none
  syncMode : Option Bool := none
  model : ResolvedModel
  images : Option (List String) := none
  maxImages : Option Nat := none
  deriving Repr, DecidableEq

/-- The failure message of a terminal failed task: the remote error, with
a default supplied through JavaScript OR (so an empty remote message also
falls back to the default). -/
def failedResultMsg (e : Option String) (dflt : String) : String :=
  match e with
  | some m => if m == "" then dflt else m
  | none => dflt

/-- The failure result the catch branch builds from a thrown exception. -/
def caughtResult (e : String) : OperationResult :=
  { success := false, taskId := "", status := "failed", outputs := [],
    timingMs := none, hasNsfw := none, error := some e }

/-- The result built from a terminal task record: a failed status becomes
a structured failure, anything else a success record. -/
def finishResult (final : TaskData) (dflt : String) : OperationResult :=
  if final.status == "failed" then
    { success := false, taskId := final.id, status := "failed", outputs := [],
      timingMs := none, hasNsfw := none,
      error := some (failedResultMsg final.error dflt) }
  else
    { success := true, taskId := final.id, status := "completed",
      outputs := final.outputs.getD [], timingMs := final.timings.bind (·.inference),
      hasNsfw := final.has_nsfw_contents, error := none }

/-- generateImage: build the payload, submit, poll, translate. -/
def generateImage (submit : Payload → Except String TaskData)
    (poll : String → Except String TaskData) (params : GenerateParams) : OperationResult :=
  let payload : Payload :=
    { prompt := params.prompt, size := params.size.getD "2048*2048",
      enable_base64_output := params.base64Output.getD false,
      enable_sync_mode := params.syncMode.getD true,
      model := params.model.modelName.getD params.model.id }
  match submit payload with
  | Except.error e => caughtResult e
  | Except.ok created =>
    match poll created.id with
    | Except.error e => caughtResult e
    | Except.ok final => finishResult final "Task failed"

/-- editImage: like generateImage, with the images list in the payload. -/
def editImage (submit : Payload → Except String TaskData)
    (poll : String → Except String TaskData) (params : EditParams) : OperationResult :=
  let payload : Payload :=
    { prompt := params.prompt, images := some params.images,
      size := params.size.getD "2048*2048",
      enable_base64_output := params.base64Output.getD false,
      enable_sync_mode := params.syncMode.getD true,
      model := params.model.modelName.getD params.model.id }
  match submit payload with
  | Except.error e => caughtResult e
  | Except.ok created =>
    match poll created.id with
    | Except.error e => caughtResult e
    | Except.ok final => finishResult final "Task failed"

/-- generateSequential: like generateImage, with max_images. -/
def generateSequential (submit : Payload → Except String TaskData)
    (poll : String → Except String TaskData) (params : GenerateSequentialParams) :
    OperationResult :=
  let payload : Payload :=
    { prompt := params.prompt, max_images := some (params.maxImages.getD 1),
      size := params.size.getD "2048*2048",
      enable_base64_output := params.base64Output.getD false,
      enable_sync_mode := params.syncMode.getD true,
      model := params.model.modelName.getD params.model.id }
  match submit payload with
  | Except.error e => caughtResult e
  | Except.ok created =>
    match poll created.id with
    | Except.error e => caughtResult e
    | Except.ok final => finishResult final "Task failed"

/-- editSequential: like generateSequential; the images list is attached
only when present and non-empty. -/
def editSequential (submit : Payload → Except String TaskData)
    (poll : String → Except String TaskData) (params : EditSequentialParams) :
    OperationResult :=
  let imagesField : Option (List String) :=
    match params.images with
    | some l => if l.length > 0 then some l else none
    | none => none
  let payload : Payload :=
    { prompt := params.prompt, max_images := some (params.maxImages.getD 1),
      images := imagesField,
      size := params.size.getD "2048*2048",
      enable_base64_output := params.base64Output.getD false,
      enable_sync_mode := params.syncMode.getD true,
      model := params.model.modelName.getD params.model.id }
  match submit payload with
  | Except.error e => caughtResult e
  | Except.ok created =>
    match poll created.id with
    | Except.error e => caughtResult e
    | Except.ok final => finishResult final "Task failed"

/-! ## Model metadata cache (src/cache: ModelCache with in-memory and file
tiers, plus the recommended-models accessor).

Effects are embedded as explicit inputs: `now` is Date.now() for the call,
`fileData` is the (version-checked, parse-checked) content of the cache
file or `none`, and `fetchRes` is the outcome of the live getModels API
call.  The output records the served result, the new in-memory state and
the number of live fetches the call performed. -/

/-- ModelSchema: one raw catalogue entry from the remote models API. -/
structure ModelSchema where
  model_id : String
  name : String
  type : String
  base_price : Nat
  description : Option String := none
  deriving Repr, DecidableEq

/-- CachedModel: compact projection of a catalogue entry. -/
structure CachedModel where
  model_id : String
  name : String
  type : String
  base_price : Nat
  description : Option String := none
  deriving Repr, DecidableEq

/-- ModelCacheData: one cache snapshot (persisted or in memory). -/
structure ModelCacheData where
  version : Nat
  fetchedAt : Nat
  ttlMs : Nat
  modelCount : Nat
  typeIndex : List (String × List String)
  models : List CachedModel
  deriving Repr, DecidableEq

/-- Current cache schema version (src/cache/types.ts). -/
def CACHE_VERSION : Nat := 1

/-- Default memory TTL: 5 minutes. -/
def DEFAULT_MEMORY_TTL_MS : Nat := 5 * 60 * 1000

/-- Default file TTL: 24 hours. -/
def DEFAULT_FILE_TTL_MS : Nat := 24 * 60 * 60 * 1000

/-- CacheStats: hit/miss counters and provenance of the last serve. -/
structure CacheStats where
  hitCount : Nat
  missCount : Nat
  lastFetchMs : Nat
  cacheAgeMs : Nat
  source : String
  deriving Repr, DecidableEq

/-- The initial statistics record. -/
def initialStats : CacheStats :=
  { hitCount := 0, missCount := 0, lastFetchMs := 0, cacheAgeMs := 0, source := "none" }

/-- CacheState: the mutable in-memory fields of the ModelCache instance. -/
structure CacheState where
  data : Option ModelCacheData
  memoryLoadedAt : Nat
  stats : CacheStats
  deriving Repr, DecidableEq

/-- The empty cache state of a freshly constructed instance. -/
def initialCacheState : CacheState :=
  { data := none, memoryLoadedAt := 0, stats := initialStats }

/-- Decidable equality of Except values with decidable components. -/
instance {ε α : Type} [DecidableEq ε] [DecidableEq α] : DecidableEq (Except ε α) := fun x y =>
  match x, y with
  | Except.ok a, Except.ok b =>
    if h : a = b then isTrue (by rw [h]) else isFalse (by intro hc; cases hc; exact h rfl)
  | Except.error a, Except.error b =>
    if h : a = b then isTrue (by rw [h]) else isFalse (by intro hc; cases hc; exact h rfl)
  | Except.ok _, Except.error _ => isFalse (by intro hc; cases hc)
  | Except.error _, Except.ok _ => isFalse (by intro hc; cases hc)

/-- Result of one getModels call: the served value, the state afterwards,
and how many live API fetches were issued (0 or 1). -/
structure GetModelsOut where
  result : Except String (List CachedModel)
  state : CacheState
  fetches : Nat
  deriving Repr, DecidableEq

namespace ModelCache

/-- Append a model id to the index entry of its type, creating the entry
at the end on first use (insertion order preserved, as for JS records). -/
def addToIndex (idx : List (String × List String)) (ty id : String) :
    List (String × List String) :=
  match idx with
  | [] => [(ty, [id])]
  | (t, ids) :: rest =>
    if t == ty then (t, ids ++ [id]) :: rest
    else (t, ids) :: addToIndex rest ty id

/-- Build the type index of a model list. -/
def buildTypeIndex (models : List CachedModel) : List (String × List String) :=
  models.foldl (fun idx m => addToIndex idx m.type m.model_id) []

/-- transformAndIndex: project the raw catalogue (descriptions truncated
to 150 characters), build the type index, stamp version and timestamps. -/
def transformAndIndex (fileTtlMs now : Nat) (rawModels : List ModelSchema) : ModelCacheData :=
  let models : List CachedModel := rawModels.map fun m =>
    { model_id := m.model_id, name := m.name, type := m.type,
      base_price := m.base_price, description := m.description.map fun s => s.take 150 }
  { version := CACHE_VERSION, fetchedAt := now, ttlMs := fileTtlMs,
    modelCount := models.length, typeIndex := buildTypeIndex models, models := models }

/-- isMemoryStale: no data, a falsy load timestamp, or age past the TTL. -/
def isMemoryStale (memoryTtlMs now : Nat) (s : CacheState) : Bool :=
  match s.data with
  | none => true
  | some _ => s.memoryLoadedAt == 0 || decide (now - s.memoryLoadedAt > memoryTtlMs)

/-- isFileStale: the snapshot age is past its own TTL. -/
def isFileStale (now : Nat) (d : ModelCacheData) : Bool :=
  decide (now - d.fetchedAt > d.ttlMs)

/-- refresh: attempt the live fetch; on success replace the snapshot (the
file write is best-effort and not modelled as an observable); on failure
keep serving existing data if any, and propagate the error only when no
snapshot is held at all. -/
def refresh (fileTtlMs now : Nat) (fetchRes : Except String (List ModelSchema))
    (s : CacheState) : Except String Unit × CacheState :=
  match fetchRes with
  | Except.ok raw =>
    (Except.ok (),
      { data := some (transformAndIndex fileTtlMs now raw), memoryLoadedAt := now,
        stats := { s.stats with lastFetchMs := now, source := "api" } })
  | Except.error e =>
    if s.data.isSome then (Except.ok (), s) else (Except.error e, s)

/-- The models held by a state, with the empty list when none are. -/
def modelsOf (s : CacheState) : List CachedModel :=
  match s.data with
  | some d => d.models
  | none => []

/-- getModels: forced refresh, else memory tier, else file tier (a fresh
file is adopted and served, a stale one only adopted), else live refresh. -/
def getModels (memoryTtlMs fileTtlMs now : Nat) (fileData : Option ModelCacheData)
    (fetchRes : Except String (List ModelSchema)) (forceRefresh : Bool)
    (s : CacheState) : GetModelsOut :=
  if forceRefresh then
    match refresh fileTtlMs now fetchRes s with
    | (Except.error e, s2) => ⟨Except.error e, s2, 1⟩
    | (Except.ok _, s2) =>
      let s3 := { s2 with stats := { s2.stats with missCount := s2.stats.missCount + 1 } }
      ⟨Except.ok (modelsOf s3), s3, 1⟩
  else if s.data.isSome && !(isMemoryStale memoryTtlMs now s) then
    let s2 := { s with stats := { s.stats with
      hitCount := s.stats.hitCount + 1,
      source := "memory",
      cacheAgeMs := now - ((s.data.map (·.fetchedAt)).getD 0) } }
    ⟨Except.ok (modelsOf s2), s2, 0⟩
  else
    let afterFile : CacheState × Option GetModelsOut :=
      match s.data with
      | some _ => (s, none)
      | none =>
        match fileData with
        | none => (s, none)
        | some fd =>
          if !(isFileStale now fd) then
            let s2 : CacheState :=
              { data := some fd, memoryLoadedAt := now,
                stats := { s.stats with
                  hitCount := s.stats.hitCount + 1,
                  source := "file",
                  cacheAgeMs := now - fd.fetchedAt } }
            (s2, some ⟨Except.ok fd.models, s2, 0⟩)
          else
            ({ s with data := some fd, memoryLoadedAt := now }, none)
    match afterFile with
    | (_, some out) => out
    | (s1, none) =>
      let s2 := { s1 with stats := { s1.stats with missCount := s1.stats.missCount + 1 } }
      match refresh fileTtlMs now fetchRes s2 with
      | (Except.error e, s3) => ⟨Except.error e, s3, 1⟩
      | (Except.ok _, s3) => ⟨Except.ok (modelsOf s3), s3, 1⟩

end ModelCache

/-! ## Recommended models (ModelCache.getRecommendedModels). -/

/-- RecommendedModel: one popular-list entry, optionally enriched with the
current catalogue price. -/
structure RecommendedModel where
  id : String
  type : String
  desc : String
  price : Option Nat := none
  deriving Repr, DecidableEq

/-- The hardcoded fallback list of recommended models. -/
def FALLBACK_RECOMMENDED : List RecommendedModel :=
  [ { id := "bytedance/seedream-v4/edit", type := "image-to-image", desc := "Best image editing" },
    { id := "google/nano-banana-pro/edit", type := "image-to-image",
      desc := "Google 4K image editing" },
    { id := "alibaba/wan-2.5/image-to-video", type := "image-to-video",
      desc := "Image to video with audio" },
    { id := "bytedance/seedream-v4", type := "text-to-image", desc := "Best overall image quality" },
    { id := "alibaba/wan-2.5/text-to-video", type := "text-to-video",
      desc := "Text to video with audio" },
    { id := "wavespeed-ai/flux-dev", type := "text-to-image", desc := "Fast high-quality images" } ]

/-- Lookup in the JS Map built from the model list: with duplicate ids the
last insertion wins, so search the reversed list. -/
def mapGet (models : List CachedModel) (id : String) : Option CachedModel :=
  models.reverse.find? fun m => m.model_id == id

/-- Membership in that map. -/
def mapHas (models : List CachedModel) (id : String) : Bool :=
  (mapGet models id).isSome

/-- Enrich one recommended entry with the catalogue price for its id. -/
def enrich (models : List CachedModel) (r : RecommendedModel) : RecommendedModel :=
  { r with price := (mapGet models r.id).map (·.base_price) }

/-- The popular-list entries kept after the catalogue cross-reference,
each enriched with its price. -/
def keptPopular (recommended : List RecommendedModel) (models : List CachedModel) :
    List RecommendedModel :=
  (recommended.filter fun r => mapHas models r.id).map (enrich models)

/-- The fallback entries used as padding: present in the catalogue and not
already among the kept entries, enriched with their prices. -/
def fallbackPadding (kept : List RecommendedModel) (models : List CachedModel) :
    List RecommendedModel :=
  (FALLBACK_RECOMMENDED.filter fun r =>
    mapHas models r.id && !(kept.any fun f => f.id == r.id)).map (enrich models)

/-- getRecommendedModels: the scraped popular list (or the fallback list
when no scrape result is held), cross-referenced against the loaded
catalogue snapshot; with fewer than 3 survivors the fallback list pads the
result, and with a snapshot loaded at most 10 entries are returned. -/
def getRecommendedModels (popularModels : Option (List RecommendedModel))
    (data : Option ModelCacheData) : List RecommendedModel :=
  let recommended := popularModels.getD FALLBACK_RECOMMENDED
  match data with
  | none => recommended
  | some d =>
    let filtered := keptPopular recommended d.models
    if filtered.length < 3 then
      (filtered ++ fallbackPadding filtered d.models).take 10
    else
      filtered.take 10

/-! ## Lemmas about the polling loops -/

/-- Variant A reaches the first terminal fetch: if no loop entry before or
at step n is past the budget, every fetch before step n is non-terminal
and the fetch at step n is terminal, the loop started at iteration i
returns that record having performed exactly i + n + 1 fetches. -/
theorem pollLoopA_done (fetch : Nat → TaskData) (elapsed : Nat → Nat) (rid : String)
    (maxDur : Nat) :
    ∀ (n i fuel : Nat), n < fuel →
      (∀ j, j ≤ n → ¬ elapsed (i + j) > maxDur) →
      (∀ j, j < n → terminalStatusA (fetch (i + j)).status = false) →
      terminalStatusA (fetch (i + n)).status = true →
      pollLoopA fetch elapsed rid maxDur fuel i
        = some (PollOutcomeA.done (fetch (i + n)) (i + n + 1)) := by
  intro n
  induction n with
  | zero =>
    intro i fuel hfuel htime hpre hterm
    match fuel, hfuel with
    | fuel + 1, _ =>
      have h0 : ¬ elapsed i > maxDur := by simpa using htime 0 (Nat.le_refl 0)
      have h1 : terminalStatusA (fetch i).status = true := by simpa using hterm
      simp [pollLoopA, h0, h1]
  | succ n ih =>
    intro i fuel hfuel htime hpre hterm
    match fuel, hfuel with
    | fuel + 1, hfuel =>
      have h0 : ¬ elapsed i > maxDur := by simpa using htime 0 (Nat.zero_le _)
      have hp0 : terminalStatusA (fetch i).status = false := by
        simpa using hpre 0 (Nat.succ_pos n)
      have htime2 : ∀ j, j ≤ n → ¬ elapsed (i + 1 + j) > maxDur := by
        intro j hj
        have e : i + 1 + j = i + (j + 1) := by omega
        rw [e]
        exact htime (j + 1) (by omega)
      have hpre2 : ∀ j, j < n → terminalStatusA (fetch (i + 1 + j)).status = false := by
        intro j hj
        have e : i + 1 + j = i + (j + 1) := by omega
        rw [e]
        exact hpre (j + 1) (by omega)
      have hterm2 : terminalStatusA (fetch (i + 1 + n)).status = true := by
        have e : i + 1 + n = i + (n + 1) := by omega
        rw [e]; exact hterm
      have hrec := ih (i + 1) fuel (Nat.lt_of_succ_lt_succ hfuel) htime2 hpre2 hterm2
      have e : i + 1 + n = i + (n + 1) := by omega
      rw [e] at hrec
      simp [pollLoopA, h0, hp0, hrec]

/-- Variant A respects the wall-clock ceiling: when every loop entry before
step n is within budget with a non-terminal fetch, and the entry at step n
is past the budget, the loop aborts at step n with the timeout message and
performs no fetch at that step. -/
theorem pollLoopA_timeout (fetch : Nat → TaskData) (elapsed : Nat → Nat) (rid : String)
    (maxDur : Nat) :
    ∀ (n i fuel : Nat), n < fuel →
      (∀ j, j < n → ¬ elapsed (i + j) > maxDur ∧ terminalStatusA (fetch (i + j)).status = false) →
      elapsed (i + n) > maxDur →
      pollLoopA fetch elapsed rid maxDur fuel i
        = some (PollOutcomeA.timedOut (timeoutMsgA maxDur rid) (i + n)) := by
  intro n
  induction n with
  | zero =>
    intro i fuel hfuel hpre htime
    match fuel, hfuel with
    | fuel + 1, _ =>
      have h0 : elapsed i > maxDur := by simpa using htime
      simp [pollLoopA, h0]
  | succ n ih =>
    intro i fuel hfuel hpre htime
    match fuel, hfuel with
    | fuel + 1, hfuel =>
      have h0 : ¬ elapsed i > maxDur := by simpa using (hpre 0 (Nat.succ_pos n)).1
      have hp0 : terminalStatusA (fetch i).status = false := by
        simpa using (hpre 0 (Nat.succ_pos n)).2
      have hpre2 : ∀ j, j < n →
          ¬ elapsed (i + 1 + j) > maxDur ∧ terminalStatusA (fetch (i + 1 + j)).status = false := by
        intro j hj
        have e : i + 1 + j = i + (j + 1) := by omega
        rw [e]
        exact hpre (j + 1) (by omega)
      have htime2 : elapsed (i + 1 + n) > maxDur := by
        have e : i + 1 + n = i + (n + 1) := by omega
        rw [e]; exact htime
      have hrec := ih (i + 1) fuel (Nat.lt_of_succ_lt_succ hfuel) hpre2 htime2
      have e : i + 1 + n = i + (n + 1) := by omega
      rw [e] at hrec
      simp [pollLoopA, h0, hp0, hrec]

/-- Variant B reaches the first terminal fetch: with every loop entry up to
step n within budget, the first n fetches succeeding with non-terminal
records and the fetch at step n succeeding with a terminal record, the run
returns that record after n steady-interval sleeps. -/
theorem pollRunB_ok (fetch : Nat → FetchResult) (elapsed : Nat → Nat)
    (interval timeout maxNR : Nat) :
    ∀ (n i fuel : Nat) (db : TaskData), n < fuel →
      (∀ j, j ≤ n → ¬ elapsed (i + j) > timeout) →
      (∀ j, j < n → ∃ d, fetch (i + j) = FetchResult.ok d ∧ terminalStatusB d.status = false) →
      fetch (i + n) = FetchResult.ok db → terminalStatusB db.status = true →
      pollRunB fetch elapsed interval timeout maxNR ⟨0, i⟩ fuel
        = some (Except.ok db, List.replicate n interval) := by
  intro n
  induction n with
  | zero =>
    intro i fuel db hfuel htime hpre hok hterm
    match fuel, hfuel with
    | fuel + 1, _ =>
      have h0 : ¬ elapsed i > timeout := by simpa using htime 0 (Nat.le_refl 0)
      have hok0 : fetch i = FetchResult.ok db := by simpa using hok
      simp [pollRunB, h0, hok0, hterm]
  | succ n ih =>
    intro i fuel db hfuel htime hpre hok hterm
    match fuel, hfuel with
    | fuel + 1, hfuel =>
      have h0 : ¬ elapsed i > timeout := by simpa using htime 0 (Nat.zero_le _)
      obtain ⟨d0, hd0, hd0t⟩ := hpre 0 (Nat.succ_pos n)
      have hd0' : fetch i = FetchResult.ok d0 := by simpa using hd0
      have htime2 : ∀ j, j ≤ n → ¬ elapsed (i + 1 + j) > timeout := by
        intro j hj
        have e : i + 1 + j = i + (j + 1) := by omega
        rw [e]
        exact htime (j + 1) (by omega)
      have hpre2 : ∀ j, j < n →
          ∃ d, fetch (i + 1 + j) = FetchResult.ok d ∧ terminalStatusB d.status = false := by
        intro j hj
        have e : i + 1 + j = i + (j + 1) := by omega
        rw [e]
        exact hpre (j + 1) (by omega)
      have hok2 : fetch (i + 1 + n) = FetchResult.ok db := by
        have e : i + 1 + n = i + (n + 1) := by omega
        rw [e]; exact hok
      have hrec := ih (i + 1) fuel db (Nat.lt_of_succ_lt_succ hfuel) htime2 hpre2 hok2 hterm
      simp [pollRunB, h0, hd0', hd0t, hrec, List.replicate_succ]

/-- Variant B respects the wall-clock ceiling: when every loop entry
before step n is within budget with a successful non-terminal fetch, and
the entry at step n is past the budget, the run raises the constant
timeout message after n steady-interval sleeps, fetching nothing at step
n. -/
theorem pollRunB_timeout (fetch : Nat → FetchResult) (elapsed : Nat → Nat)
    (interval timeout maxNR : Nat) :
    ∀ (n i fuel : Nat), n < fuel →
      (∀ j, j < n → ¬ elapsed (i + j) > timeout ∧
        ∃ d, fetch (i + j) = FetchResult.ok d ∧ terminalStatusB d.status = false) →
      elapsed (i + n) > timeout →
      pollRunB fetch elapsed interval timeout maxNR ⟨0, i⟩ fuel
        = some (Except.error "Polling timed out", List.replicate n interval) := by
  intro n
  induction n with
  | zero =>
    intro i fuel hfuel hpre htime
    match fuel, hfuel with
    | fuel + 1, _ =>
      have h0 : elapsed i > timeout := by simpa using htime
      simp [pollRunB, h0]
  | succ n ih =>
    intro i fuel hfuel hpre htime
    match fuel, hfuel with
    | fuel + 1, hfuel =>
      have h0 : ¬ elapsed i > timeout := by simpa using (hpre 0 (Nat.succ_pos n)).1
      obtain ⟨d0, hd0, hd0t⟩ := (hpre 0 (Nat.succ_pos n)).2
      have hd0' : fetch i = FetchResult.ok d0 := by simpa using hd0
      have hpre2 : ∀ j, j < n → ¬ elapsed (i + 1 + j) > timeout ∧
          ∃ d, fetch (i + 1 + j) = FetchResult.ok d ∧ terminalStatusB d.status = false := by
        intro j hj
        have e : i + 1 + j = i + (j + 1) := by omega
        rw [e]
        exact hpre (j + 1) (by omega)
      have htime2 : elapsed (i + 1 + n) > timeout := by
        have e : i + 1 + n = i + (n + 1) := by omega
        rw [e]; exact htime
      have hrec := ih (i + 1) fuel (Nat.lt_of_succ_lt_succ hfuel) hpre2 htime2
      simp [pollRunB, h0, hd0', hd0t, hrec, List.replicate_succ]

/-- Variant B exhausts its network retries: starting with counter c, after
k + 1 consecutive fetch failures where c + k equals the retry bound, the
run sleeps the scaled backoff after each of the first k failures and then
re-raises the last error. -/
theorem pollRunB_err_run (fetch : Nat → FetchResult) (elapsed : Nat → Nat)
    (interval timeout maxNR : Nat) :
    ∀ (k c i fuel : Nat) (errs : Nat → String), c + k = maxNR → k < fuel →
      (∀ j, j ≤ k → ¬ elapsed (i + j) > timeout) →
      (∀ j, j ≤ k → fetch (i + j) = FetchResult.err (errs j)) →
      pollRunB fetch elapsed interval timeout maxNR ⟨c, i⟩ fuel
        = some (Except.error (errs k),
            (List.range k).map fun j => interval * min 4 (c + j + 1)) := by
  intro k
  induction k with
  | zero =>
    intro c i fuel errs hc hfuel htime herr
    match fuel, hfuel with
    | fuel + 1, _ =>
      have h0 : ¬ elapsed i > timeout := by simpa using htime 0 (Nat.le_refl 0)
      have he0 : fetch i = FetchResult.err (errs 0) := by simpa using herr 0 (Nat.le_refl 0)
      have hgt : c + 1 > maxNR := by omega
      simp [pollRunB, h0, he0, hgt]
  | succ k ih =>
    intro c i fuel errs hc hfuel htime herr
    match fuel, hfuel with
    | fuel + 1, hfuel =>
      have h0 : ¬ elapsed i > timeout := by simpa using htime 0 (Nat.zero_le _)
      have he0 : fetch i = FetchResult.err (errs 0) := by simpa using herr 0 (Nat.zero_le _)
      have hle : ¬ c + 1 > maxNR := by omega
      have htime2 : ∀ j, j ≤ k → ¬ elapsed (i + 1 + j) > timeout := by
        intro j hj
        have e : i + 1 + j = i + (j + 1) := by omega
        rw [e]
        exact htime (j + 1) (by omega)
      have herr2 : ∀ j, j ≤ k → fetch (i + 1 + j) = FetchResult.err (errs (j + 1)) := by
        intro j hj
        have e : i + 1 + j = i + (j + 1) := by omega
        rw [e]
        exact herr (j + 1) (by omega)
      have hrec := ih (c + 1) (i + 1) fuel (fun j => errs (j + 1)) (by omega)
        (Nat.lt_of_succ_lt_succ hfuel) htime2 herr2
      have hmap : (List.range (k + 1)).map (fun j => interval * min 4 (c + j + 1))
          = interval * min 4 (c + 1) ::
            (List.range k).map (fun j => interval * min 4 (c + 1 + j + 1)) := by
        rw [List.range_succ_eq_map, List.map_cons, List.map_map]
        have h1 : interval * min 4 (c + 0 + 1) = interval * min 4 (c + 1) := by norm_num
        have h2 : (List.range k).map ((fun j => interval * min 4 (c + j + 1)) ∘ Nat.succ)
            = (List.range k).map (fun j => interval * min 4 (c + 1 + j + 1)) := by
          apply List.map_congr_left
          intro a _
          show interval * min 4 (c + Nat.succ a + 1) = interval * min 4 (c + 1 + a + 1)
          have e : c + Nat.succ a + 1 = c + 1 + a + 1 := by omega
          rw [e]
        rw [h1, h2]
      rw [hmap]
      simp [pollRunB, h0, he0, hle, hrec]

/-! ## Claim C1 -/

/-- The terminal set asserted by the claim (both vocabularies together). -/
def inClaimedTerminalSet (s : String) : Bool :=
  s == "completed" || s == "succeeded" || s == "failed"

/-- A first fetch whose status is "completed" (claimed terminal). -/
def c1rec0 : TaskData := { id := "t1", status := "completed" }

/-- A second fetch whose status is "succeeded". -/
def c1rec1 : TaskData := { id := "t1", status := "succeeded" }

/-- Claim C1 (counterexample): the claim asserts pollUntilDone returns the
first fetched record with status in the set containing completed,
succeeded and failed, with no further fetch after such a status.  In the
images.ts variant the first fetched record has the claimed-terminal status
"completed", yet the loop performs a second fetch and returns the second
record instead: only "succeeded" and "failed" are terminal there. -/
theorem C1_counterexample :
    inClaimedTerminalSet c1rec0.status = true ∧
    pollUntilDoneA (fun i => if i == 0 then c1rec0 else c1rec1) (fun _ => 0) "t1" 600000 5
      = some (PollOutcomeA.done c1rec1 2) ∧
    c1rec1 ≠ c1rec0 := by
  refine ⟨rfl, rfl, ?_⟩
  decide

/-- Claim C1 (amended): each polling variant returns the first fetched
record whose status lies in its own terminal set — succeeded/failed for
the images.ts variant, completed/failed for the polling.ts variant — and
performs no further fetch after observing such a status (the fetch count
of variant A is exactly n + 1, and the variant B run ends at fetch n with
n steady sleeps). -/
theorem C1_first_terminal_per_variant
    (fetch : Nat → TaskData) (fetchB : Nat → FetchResult) (elapsed elapsedB : Nat → Nat)
    (rid : String) (maxDur interval timeout maxNR n fuel : Nat) (db : TaskData)
    (hfuel : n < fuel)
    (htimeA : ∀ j, j ≤ n → ¬ elapsed j > maxDur)
    (hpreA : ∀ j, j < n → terminalStatusA (fetch j).status = false)
    (htermA : terminalStatusA (fetch n).status = true)
    (htimeB : ∀ j, j ≤ n → ¬ elapsedB j > timeout)
    (hpreB : ∀ j, j < n → ∃ d, fetchB j = FetchResult.ok d ∧ terminalStatusB d.status = false)
    (hokB : fetchB n = FetchResult.ok db)
    (htermB : terminalStatusB db.status = true) :
    pollUntilDoneA fetch elapsed rid maxDur fuel
      = some (PollOutcomeA.done (fetch n) (n + 1)) ∧
    pollUntilDoneB fetchB elapsedB interval timeout maxNR fuel
      = some (Except.ok db, List.replicate n interval) := by
  constructor
  · have := pollLoopA_done fetch elapsed rid maxDur n 0 fuel hfuel
      (by intro j hj; simpa using htimeA j hj)
      (by intro j hj; simpa using hpreA j hj)
      (by simpa using htermA)
    simpa [pollUntilDoneA] using this
  · have := pollRunB_ok fetchB elapsedB interval timeout maxNR n 0 fuel db hfuel
      (by intro j hj; simpa using htimeB j hj)
      (by intro j hj; simpa using hpreB j hj)
      (by simpa using hokB) htermB
    simpa [pollUntilDoneB] using this

/-- Non-terminal record used in the C1 witness. -/
def c1proc : TaskData := { id := "t1", status := "processing" }

/-- Terminal records used in the C1 witness. -/
def c1doneA : TaskData := { id := "t1", status := "succeeded", outputs := some ["u"] }

/-- Terminal record of the variant B run in the C1 witness. -/
def c1doneB : TaskData := { id := "t1", status := "completed", outputs := some ["u"] }

/-- Witness for C1: a concrete two-fetch run of each variant. -/
theorem C1_first_terminal_per_variant_witness :
    pollUntilDoneA (fun i => if i == 0 then c1proc else c1doneA) (fun _ => 0) "t1" 600000 3
      = some (PollOutcomeA.done c1doneA 2) ∧
    pollUntilDoneB (fun i => if i == 0 then FetchResult.ok c1proc else FetchResult.ok c1doneB)
        (fun _ => 0) 2500 600000 3 3
      = some (Except.ok c1doneB, [2500]) := by
  have h := C1_first_terminal_per_variant
    (fun i => if i == 0 then c1proc else c1doneA)
    (fun i => if i == 0 then FetchResult.ok c1proc else FetchResult.ok c1doneB)
    (fun _ => 0) (fun _ => 0) "t1" 600000 2500 600000 3 1 3 c1doneB
    (by omega)
    (by intro j hj; simp)
    (by intro j hj; have : j = 0 := by omega
        subst this; rfl)
    (by rfl)
    (by intro j hj; simp)
    (by intro j hj; have : j = 0 := by omega
        subst this; exact ⟨c1proc, rfl, rfl⟩)
    (by rfl)
    (by rfl)
  simpa using h

/-! ## Claim C2 -/

/-- Terminal record used in the C2 counterexample. -/
def c2done : TaskData := { id := "t1", status := "completed" }

/-- Claim C2 (counterexample): the claim asserts each retry waits a
backoff interval distinct from the steady per-poll interval.  With the
steady interval 2500 and one transient failure, the single retry waits
2500 * min 4 1 = 2500 — exactly the steady per-poll interval, which is
therefore a member of the retry-wait list. -/
theorem C2_counterexample :
    pollUntilDoneB (fun i => if i == 0 then FetchResult.err "boom" else FetchResult.ok c2done)
        (fun _ => 0) 2500 600000 3 2
      = some (Except.ok c2done, [2500]) ∧
    (2500 : Nat) ∈ [2500] := by
  exact ⟨rfl, by decide⟩

/-- Claim C2 (amended): each transient fetch failure increments the retry
counter; once the counter exceeds the bound the last error is re-raised;
each retry waits interval * min 4 retryCount — a linearly scaled backoff
capped at four times the interval, which equals the steady per-poll
interval on the first retry and exceeds it afterwards; and every
successful non-terminal poll resets the counter to zero (the run from any
counter value n continues exactly as the run from counter zero). -/
theorem C2_retry_policy
    (fetch : Nat → FetchResult) (elapsed : Nat → Nat)
    (interval timeout maxNR i fuel : Nat) (errs : Nat → String)
    (htime : ∀ j, j ≤ maxNR → ¬ elapsed (i + j) > timeout)
    (herr : ∀ j, j ≤ maxNR → fetch (i + j) = FetchResult.err (errs j))
    (hfuel : maxNR < fuel) :
    pollRunB fetch elapsed interval timeout maxNR ⟨0, i⟩ fuel
      = some (Except.error (errs maxNR),
          (List.range maxNR).map fun j => interval * min 4 (j + 1)) ∧
    (∀ (fetchG : Nat → FetchResult) (elapsedG : Nat → Nat) (iG n : Nat) (d : TaskData)
        (fuel2 : Nat),
      fetchG iG = FetchResult.ok d → terminalStatusB d.status = false →
      ¬ elapsedG iG > timeout →
      pollRunB fetchG elapsedG interval timeout maxNR ⟨n, iG⟩ (fuel2 + 1)
        = (pollRunB fetchG elapsedG interval timeout maxNR ⟨0, iG + 1⟩ fuel2).map
            fun p => (p.1, interval :: p.2)) := by
  constructor
  · have := pollRunB_err_run fetch elapsed interval timeout maxNR maxNR 0 i fuel errs
      (by omega) hfuel htime herr
    simpa using this
  · intro fetchG elapsedG iG n d fuel2 hok hterm htime0
    simp [pollRunB, htime0, hok, hterm]

/-- Witness for C2: three retries at 2500/5000/7500ms then the fourth
failure re-raises, and a successful non-terminal poll resets the counter. -/
theorem C2_retry_policy_witness :
    pollRunB (fun _ => FetchResult.err "boom") (fun _ => 0) 2500 600000 3 ⟨0, 0⟩ 4
      = some (Except.error "boom", [2500, 5000, 7500]) ∧
    pollRunB (fun _ => FetchResult.ok c1proc) (fun _ => 0) 2500 600000 3 ⟨2, 0⟩ 1
      = (pollRunB (fun _ => FetchResult.ok c1proc) (fun _ => 0) 2500 600000 3 ⟨0, 1⟩ 0).map
          fun p => (p.1, 2500 :: p.2) := by
  have h := C2_retry_policy (fun _ => FetchResult.err "boom") (fun _ => 0) 2500 600000 3 0 4
    (fun _ => "boom") (by intro j hj; simp) (by intro j hj; rfl) (by omega)
  constructor
  · have := h.1
    simpa using this
  · exact h.2 (fun _ => FetchResult.ok c1proc) (fun _ => 0) 0 2 c1proc 0 rfl rfl (by simp)

/-! ## Claim C3 -/

/-- Claim C3 (counterexample): the claim asserts the timeout error names
the task.  The polling.ts variant raises the constant message "Polling
timed out", which does not contain the task id (here t1) at all. -/
theorem C3_counterexample :
    pollUntilDoneB (fun _ => FetchResult.ok c1proc) (fun _ => 700000) 2500 600000 3 1
      = some (Except.error "Polling timed out", []) ∧
    ¬ ("t1".toList <:+: "Polling timed out".toList) := by
  exact ⟨rfl, by decide⟩

/-- Claim C3 (amended): in both variants, once the elapsed wall-clock
time at a loop entry exceeds the ceiling the poll aborts with a timeout
error and performs no further fetch, independent of how many successful
non-terminal polls occurred (n is arbitrary); the images.ts variant's
message embeds the request id, while the polling.ts variant's message is
the constant "Polling timed out" without the task id. -/
theorem C3_wallclock_timeout
    (fetch : Nat → TaskData) (fetchB : Nat → FetchResult) (elapsed elapsedB : Nat → Nat)
    (rid : String) (maxDur interval timeout maxNR n fuel : Nat)
    (hfuel : n < fuel)
    (hpreA : ∀ j, j < n → ¬ elapsed j > maxDur ∧ terminalStatusA (fetch j).status = false)
    (htimeA : elapsed n > maxDur)
    (hpreB : ∀ j, j < n → ¬ elapsedB j > timeout ∧
      ∃ d, fetchB j = FetchResult.ok d ∧ terminalStatusB d.status = false)
    (htimeB : elapsedB n > timeout) :
    pollUntilDoneA fetch elapsed rid maxDur fuel
      = some (PollOutcomeA.timedOut (timeoutMsgA maxDur rid) n) ∧
    (∃ pre, timeoutMsgA maxDur rid = pre ++ rid) ∧
    pollUntilDoneB fetchB elapsedB interval timeout maxNR fuel
      = some (Except.error "Polling timed out", List.replicate n interval) := by
  refine ⟨?_, ⟨"Polling timed out after " ++ toString maxDur ++ "ms for request ", rfl⟩, ?_⟩
  · have := pollLoopA_timeout fetch elapsed rid maxDur n 0 fuel hfuel
      (by intro j hj; simpa using hpreA j hj)
      (by simpa using htimeA)
    simpa [pollUntilDoneA] using this
  · have := pollRunB_timeout fetchB elapsedB interval timeout maxNR n 0 fuel hfuel
      (by intro j hj; simpa using hpreB j hj)
      (by simpa using htimeB)
    simpa [pollUntilDoneB] using this

/-- Witness for C3: a clock past the ceiling at the second loop entry
aborts both variants after exactly one successful non-terminal poll. -/
theorem C3_wallclock_timeout_witness :
    pollUntilDoneA (fun _ => c1proc) (fun i => if i == 0 then 0 else 700000) "t1" 600000 3
      = some (PollOutcomeA.timedOut (timeoutMsgA 600000 "t1") 1) ∧
    (∃ pre, timeoutMsgA 600000 "t1" = pre ++ "t1") ∧
    pollUntilDoneB (fun _ => FetchResult.ok c1proc) (fun i => if i == 0 then 0 else 700000)
        2500 600000 3 3
      = some (Except.error "Polling timed out", [2500]) := by
  have h := C3_wallclock_timeout (fun _ => c1proc) (fun _ => FetchResult.ok c1proc)
    (fun i => if i == 0 then 0 else 700000) (fun i => if i == 0 then 0 else 700000)
    "t1" 600000 2500 600000 3 1 3
    (by omega)
    (by intro j hj; have : j = 0 := by omega
        subst this; exact ⟨by simp, rfl⟩)
    (by simp)
    (by intro j hj; have : j = 0 := by omega
        subst this; exact ⟨by simp, c1proc, rfl, rfl⟩)
    (by simp)
  simpa using h

/-! ## Claims C4 and C5 -/

/-- The truthiness projection sends an absent value to an absent value. -/
theorem optStr_none : optStr none = none := rfl

/-- A successful normalization keeps the id it was given. -/
theorem resolveFromConfigModel_id (env : String → Option String) (id : String)
    (mc : ModelConfig) (r : ResolvedModel) :
    resolveFromConfigModel env id mc = Except.ok r → r.id = id := by
  intro h
  unfold resolveFromConfigModel at h
  dsimp only at h
  repeat' split at h
  all_goals first
    | exact Except.noConfusion h
    | (cases h; rfl)

/-- Claim C4: resolveModel selects by first-match precedence with no
merging across levels.  With an explicit id the defaults are never
consulted; with no explicit id and a command-level default present, the
global default is never consulted and any successful resolution carries
the command-level default id; and with no config at all and the native
env var set, the fixed built-in descriptor with isFromConfig = false is
returned. -/
theorem C4_resolveModel_precedence
    (env : String → Option String) (cn : String)
    (models : List (String × ModelConfig)) (cmds : List (String × String))
    (g : Option String) (cmdId k : String)
    (hcmd : optStr (cmds.lookup cn) = some cmdId)
    (hk : optStr (env "WAVESPEED_API_KEY") = some k) :
    (∀ (f : String) (d1 d2 : Option DefaultsConfig), f ≠ "" →
      resolveModel env cn (some f) (some ⟨models, d1⟩)
        = resolveModel env cn (some f) (some ⟨models, d2⟩)) ∧
    (∀ (g1 g2 : Option String),
      resolveModel env cn none (some ⟨models, some ⟨g1, cmds⟩⟩)
        = resolveModel env cn none (some ⟨models, some ⟨g2, cmds⟩⟩)) ∧
    (∀ r, resolveModel env cn none (some ⟨models, some ⟨g, cmds⟩⟩) = Except.ok r →
      r.id = cmdId) ∧
    resolveModel env cn none none = Except.ok (builtinModel k) ∧
    (builtinModel k).isFromConfig = false := by
  refine ⟨?_, ?_, ?_, ?_, rfl⟩
  · intro f d1 d2 hf
    have hopt : optStr (some f) = some f := by simp [optStr, hf]
    simp only [resolveModel, hopt, Option.bind]
  · intro g1 g2
    simp only [resolveModel, optStr_none, Option.bind, hcmd]
  · intro r h
    simp only [resolveModel, optStr_none, Option.bind, hcmd] at h
    split at h
    · exact resolveFromConfigModel_id env cmdId _ r h
    · split at h
      · exact resolveFromConfigModel_id env cmdId _ r h
      · cases h
  · simp only [resolveModel, Option.bind, optStr_none, hk]

/-- Environment used by the C4 witness. -/
def c4env : String → Option String := fun n =>
  if n == "WAVESPEED_API_KEY" then some "sk"
  else if n == "ALT_KEY" then some "secret1" else none

/-- Config alias map used by the C4 witness. -/
def c4models : List (String × ModelConfig) :=
  [("alt", { provider := "custom", apiBaseUrl := some "https://x.test",
             apiKeyEnv := some "ALT_KEY" })]

/-- Command-default map used by the C4 witness. -/
def c4cmds : List (String × String) := [("generate", "alt")]

/-- Witness for C4: concrete precedence checks against a one-alias config. -/
theorem C4_resolveModel_precedence_witness :
    resolveModel c4env "generate" (some "alt") (some ⟨c4models, none⟩)
      = resolveModel c4env "generate" (some "alt")
          (some ⟨c4models, some ⟨some "seedream-v3.1", c4cmds⟩⟩) ∧
    resolveModel c4env "generate" none (some ⟨c4models, some ⟨some "seedream-v3.1", c4cmds⟩⟩)
      = resolveModel c4env "generate" none (some ⟨c4models, some ⟨none, c4cmds⟩⟩) ∧
    resolveModel c4env "generate" none none = Except.ok (builtinModel "sk") := by
  have h := C4_resolveModel_precedence c4env "generate" c4models c4cmds
    (some "seedream-v3.1") "alt" "sk" (by rfl) (by rfl)
  exact ⟨h.1 "alt" none (some ⟨some "seedream-v3.1", c4cmds⟩) (by decide),
    h.2.1 (some "seedream-v3.1") none, h.2.2.2.1⟩

/-- Claim C5 (counterexample): with an id absent from both config and
registry referenced by the global default, resolveModel throws the
invalid_default_global error, whose message differs from the
unknown_model message raised for an explicit flag, so the error kind does
depend on the precedence level. -/
theorem C5_counterexample :
    resolveModel (fun _ => none) "generate" none (some ⟨[], some ⟨some "nope", []⟩⟩)
      = Except.error ⟨invalidGlobalDefaultMsg "nope", 3⟩ ∧
    invalidGlobalDefaultMsg "nope" ≠ unknownModelMsg "nope" := by
  exact ⟨rfl, by decide⟩

/-- Claim C5 (amended): for a model id absent from both the config alias
map and the static registry, resolveModel throws a ConfigError with exit
code 3 at every precedence level, but the message differs by level:
unknown_model for the explicit flag, invalid_default_command for a
command-level default, invalid_default_global for the global default. -/
theorem C5_unknown_model_by_level
    (env : String → Option String) (cn f cid gid : String)
    (models : List (String × ModelConfig)) (cmds : List (String × String))
    (hf : f ≠ "")
    (hf1 : models.lookup f = none) (hf2 : getRegistryModel f = none)
    (hc0 : optStr (cmds.lookup cn) = some cid)
    (hc1 : models.lookup cid = none) (hc2 : getRegistryModel cid = none)
    (hg : gid ≠ "")
    (hg1 : models.lookup gid = none) (hg2 : getRegistryModel gid = none) :
    resolveModel env cn (some f) (some ⟨models, none⟩)
      = Except.error ⟨unknownModelMsg f, 3⟩ ∧
    resolveModel env cn none (some ⟨models, some ⟨none, cmds⟩⟩)
      = Except.error ⟨invalidCommandDefaultMsg cn cid, 3⟩ ∧
    resolveModel env cn none (some ⟨models, some ⟨some gid, []⟩⟩)
      = Except.error ⟨invalidGlobalDefaultMsg gid, 3⟩ := by
  have hoptf : optStr (some f) = some f := by simp [optStr, hf]
  have hoptg : optStr (some gid) = some gid := by simp [optStr, hg]
  refine ⟨?_, ?_, ?_⟩
  · simp only [resolveModel, hoptf, Option.bind, hf1, hf2]
  · simp only [resolveModel, optStr_none, Option.bind, hc0, hc1, hc2]
  · simp only [resolveModel, optStr_none, Option.bind, List.lookup, hoptg, hg1, hg2]

/-- Witness for C5: the id nope is unknown everywhere; the three levels
raise three different messages, each with exit code 3. -/
theorem C5_unknown_model_by_level_witness :
    resolveModel (fun _ => none) "generate" (some "nope") (some ⟨[], none⟩)
      = Except.error ⟨unknownModelMsg "nope", 3⟩ ∧
    resolveModel (fun _ => none) "generate" none
        (some ⟨[], some ⟨none, [("generate", "nope")]⟩⟩)
      = Except.error ⟨invalidCommandDefaultMsg "generate" "nope", 3⟩ ∧
    resolveModel (fun _ => none) "generate" none (some ⟨[], some ⟨some "nope", []⟩⟩)
      = Except.error ⟨invalidGlobalDefaultMsg "nope", 3⟩ := by
  exact C5_unknown_model_by_level (fun _ => none) "generate" "nope" "nope" "nope" []
    [("generate", "nope")] (by decide) rfl (by decide) rfl rfl (by decide) (by decide)
    rfl (by decide)

/-! ## Claims C6 and C10 -/

/-- Claim C6: no orchestrator throws for task-execution failures.  A
terminal failed task becomes a success=false result carrying the remote
error message, and an exception thrown during submit or during poll is
converted into the structured catch-shape failure result instead of
propagating.  All three failure paths are stated for each of the four
orchestrators. -/
theorem C6_orchestrators_structured_failure
    (gp : GenerateParams) (ep : EditParams) (sp : GenerateSequentialParams)
    (qp : EditSequentialParams)
    (poll : String → Except String TaskData)
    (created : TaskData) (tid m e : String) (outs : Option (List String))
    (hm : m ≠ "") :
    (∀ op : (Payload → Except String TaskData) → (String → Except String TaskData) →
        OperationResult,
      (op = fun s p => generateImage s p gp) ∨ (op = fun s p => editImage s p ep) ∨
      (op = fun s p => generateSequential s p sp) ∨ (op = fun s p => editSequential s p qp) →
      op (fun _ => Except.ok created) (fun _ => Except.ok
          { id := tid, status := "failed", outputs := outs, error := some m })
        = { success := false, taskId := tid, status := "failed", outputs := [],
            timingMs := none, hasNsfw := none, error := some m } ∧
      op (fun _ => Except.error e) poll = caughtResult e ∧
      op (fun _ => Except.ok created) (fun _ => Except.error e) = caughtResult e) := by
  have hb : (m == "") = false := by
    exact beq_eq_false_iff_ne.mpr hm
  intro op hop
  have hfin : finishResult { id := tid, status := "failed", outputs := outs, error := some m }
      "Task failed"
      = { success := false, taskId := tid, status := "failed", outputs := [],
          timingMs := none, hasNsfw := none, error := some m } := by
    simp [finishResult, failedResultMsg, hb]
  rcases hop with h | h | h | h <;> subst h
  · exact ⟨by simp [generateImage, hfin], rfl, rfl⟩
  · exact ⟨by simp [editImage, hfin], rfl, rfl⟩
  · exact ⟨by simp [generateSequential, hfin], rfl, rfl⟩
  · exact ⟨by simp [editSequential, hfin], rfl, rfl⟩

/-- A resolved model used by the orchestrator witnesses. -/
def c6model : ResolvedModel :=
  { id := "seedream-v4", provider := "wavespeed", apiBaseUrl := "https://api.wavespeed.ai",
    apiKey := "sk", apiKeyEnv := "WAVESPEED_API_KEY",
    modelName := some "bytedance/seedream-v4", type := "image", isFromConfig := false }

/-- Witness for C6: the spec scenario — a remote result with status
failed and error message nsfw content blocked resolves (does not throw)
to a success=false result carrying that message; a thrown submit error is
likewise converted. -/
theorem C6_orchestrators_structured_failure_witness :
    generateImage (fun _ => Except.ok { id := "t1", status := "created" })
        (fun _ => Except.ok
          { id := "t1", status := "failed", outputs := some [],
            error := some "nsfw content blocked" })
        { prompt := "x", model := c6model }
      = { success := false, taskId := "t1", status := "failed", outputs := [],
          timingMs := none, hasNsfw := none, error := some "nsfw content blocked" } ∧
    editImage (fun _ => Except.error "boom") (fun _ => Except.ok { id := "t1", status := "created" })
        { prompt := "x", model := c6model, images := ["u"] }
      = caughtResult "boom" := by
  have h := C6_orchestrators_structured_failure
    { prompt := "x", model := c6model }
    { prompt := "x", model := c6model, images := ["u"] }
    { prompt := "x", model := c6model }
    { prompt := "x", model := c6model }
    (fun _ => Except.ok { id := "t1", status := "created" })
    { id := "t1", status := "created" } "t1" "nsfw content blocked" "boom" (some [])
    (by decide)
  exact ⟨(h _ (Or.inl rfl)).1, (h _ (Or.inr (Or.inl rfl))).2.1⟩

/-- Claim C10: whenever an orchestrator converts a thrown exception into
a failure result, that result has an empty taskId, status failed and an
empty outputs list — even when submission succeeded and returned a real
task id and the exception arose later during polling, the id of the
created task is not preserved. -/
theorem C10_exception_result_drops_task_id
    (gp : GenerateParams) (ep : EditParams) (sp : GenerateSequentialParams)
    (qp : EditSequentialParams) (created : TaskData) (e : String) :
    generateImage (fun _ => Except.ok created) (fun _ => Except.error e) gp
      = { success := false, taskId := "", status := "failed", outputs := [],
          timingMs := none, hasNsfw := none, error := some e } ∧
    editImage (fun _ => Except.ok created) (fun _ => Except.error e) ep
      = { success := false, taskId := "", status := "failed", outputs := [],
          timingMs := none, hasNsfw := none, error := some e } ∧
    generateSequential (fun _ => Except.ok created) (fun _ => Except.error e) sp
      = { success := false, taskId := "", status := "failed", outputs := [],
          timingMs := none, hasNsfw := none, error := some e } ∧
    editSequential (fun _ => Except.ok created) (fun _ => Except.error e) qp
      = { success := false, taskId := "", status := "failed", outputs := [],
          timingMs := none, hasNsfw := none, error := some e } := by
  exact ⟨rfl, rfl, rfl, rfl⟩

/-! ## Claims C7 and C8 -/

/-- With an in-memory snapshot and a fresh load timestamp, getModels hits
memory: no live fetch, the held models are served. -/
theorem getModels_memory_hit (memTtl fileTtl now : Nat) (fileData : Option ModelCacheData)
    (fetchRes : Except String (List ModelSchema)) (s : CacheState) (d : ModelCacheData)
    (hd : s.data = some d) (hstale : ModelCache.isMemoryStale memTtl now s = false) :
    (ModelCache.getModels memTtl fileTtl now fileData fetchRes false s).fetches = 0 ∧
    (ModelCache.getModels memTtl fileTtl now fileData fetchRes false s).result
      = Except.ok d.models ∧
    (ModelCache.getModels memTtl fileTtl now fileData fetchRes false s).state.data = s.data := by
  simp [ModelCache.getModels, hd, hstale, ModelCache.modelsOf]

/-- With a stale or absent memory snapshot recorded as present data, the
file tier is bypassed and a live refresh happens. -/
theorem getModels_stale_memory_refreshes (memTtl fileTtl now : Nat)
    (fileData : Option ModelCacheData) (fetchRes : Except String (List ModelSchema))
    (s : CacheState) (d : ModelCacheData)
    (hd : s.data = some d) (hstale : ModelCache.isMemoryStale memTtl now s = true) :
    (ModelCache.getModels memTtl fileTtl now fileData fetchRes false s).fetches = 1 := by
  cases fetchRes with
  | ok raw => simp [ModelCache.getModels, hd, hstale, ModelCache.refresh]
  | error e => simp [ModelCache.getModels, hd, hstale, ModelCache.refresh]

/-- Claim C7 (counterexample): the claim asserts a call after the memory
TTL with a younger-than-file-TTL cache file issues zero live fetches and
adopts the file.  With a stale in-memory snapshot (loaded at 1ms, now
400000ms, TTL 300000ms) and a fresh file snapshot on disk, the call
bypasses the file, issues one live fetch, and serves the API result, not
the file snapshot. -/
theorem C7_counterexample :
    (ModelCache.getModels 300000 86400000 400000
        (some { version := 1, fetchedAt := 350000, ttlMs := 86400000, modelCount := 1,
                typeIndex := [("text-to-image", ["m1"])],
                models := [{ model_id := "m1", name := "M1", type := "text-to-image",
                             base_price := 5 }] })
        (Except.ok [{ model_id := "api-model", name := "A", type := "text-to-image",
                      base_price := 7 }])
        false
        { data := some { version := 1, fetchedAt := 0, ttlMs := 86400000, modelCount := 0,
                         typeIndex := [], models := [] },
          memoryLoadedAt := 1, stats := initialStats }).fetches = 1 ∧
    (ModelCache.getModels 300000 86400000 400000
        (some { version := 1, fetchedAt := 350000, ttlMs := 86400000, modelCount := 1,
                typeIndex := [("text-to-image", ["m1"])],
                models := [{ model_id := "m1", name := "M1", type := "text-to-image",
                             base_price := 5 }] })
        (Except.ok [{ model_id := "api-model", name := "A", type := "text-to-image",
                      base_price := 7 }])
        false
        { data := some { version := 1, fetchedAt := 0, ttlMs := 86400000, modelCount := 0,
                         typeIndex := [], models := [] },
          memoryLoadedAt := 1, stats := initialStats }).result
      ≠ Except.ok [{ model_id := "m1", name := "M1", type := "text-to-image",
                     base_price := 5 }] := by
  exact ⟨rfl, by decide⟩

/-- Claim C7 (amended): two consecutive getModels calls, the first of
which performs a live fetch, issue exactly one live fetch when the second
falls inside the memory-TTL window; a call with no in-memory snapshot and
an on-disk file younger than the file TTL issues zero live fetches and
adopts the file snapshot into memory; a call whose in-memory snapshot has
merely expired bypasses the file and issues a live fetch; and a call with
forceRefresh always issues a live fetch regardless of freshness. -/
theorem C7_cache_fetch_policy
    (memTtl fileTtl now1 now2 : Nat) (raw : List ModelSchema)
    (fetch2 : Except String (List ModelSchema))
    (h1 : 1 ≤ now1) (_h2 : now1 ≤ now2) (h3 : ¬ now2 - now1 > memTtl) :
    ((ModelCache.getModels memTtl fileTtl now1 none (Except.ok raw) false
        initialCacheState).fetches = 1 ∧
      (ModelCache.getModels memTtl fileTtl now2 none fetch2 false
        (ModelCache.getModels memTtl fileTtl now1 none (Except.ok raw) false
          initialCacheState).state).fetches = 0 ∧
      (ModelCache.getModels memTtl fileTtl now2 none fetch2 false
        (ModelCache.getModels memTtl fileTtl now1 none (Except.ok raw) false
          initialCacheState).state).result
        = (ModelCache.getModels memTtl fileTtl now1 none (Except.ok raw) false
            initialCacheState).result) ∧
    (∀ (s : CacheState) (fd : ModelCacheData) (fetchRes : Except String (List ModelSchema))
        (now : Nat), s.data = none → ¬ now - fd.fetchedAt > fd.ttlMs →
      (ModelCache.getModels memTtl fileTtl now (some fd) fetchRes false s).fetches = 0 ∧
      (ModelCache.getModels memTtl fileTtl now (some fd) fetchRes false s).result
        = Except.ok fd.models ∧
      (ModelCache.getModels memTtl fileTtl now (some fd) fetchRes false s).state.data
        = some fd ∧
      (ModelCache.getModels memTtl fileTtl now (some fd) fetchRes false s).state.memoryLoadedAt
        = now) ∧
    (∀ (s : CacheState) (fileData : Option ModelCacheData)
        (fetchRes : Except String (List ModelSchema)) (now : Nat),
      (ModelCache.getModels memTtl fileTtl now fileData fetchRes true s).fetches = 1) ∧
    (∀ (s : CacheState) (d : ModelCacheData) (fileData : Option ModelCacheData)
        (fetchRes : Except String (List ModelSchema)) (now : Nat),
      s.data = some d → ModelCache.isMemoryStale memTtl now s = true →
      (ModelCache.getModels memTtl fileTtl now fileData fetchRes false s).fetches = 1) := by
  refine ⟨?_, ?_, ?_, ?_⟩
  · have hout1 : (ModelCache.getModels memTtl fileTtl now1 none (Except.ok raw) false
        initialCacheState).state.data
        = some (ModelCache.transformAndIndex fileTtl now1 raw) := by
      simp [ModelCache.getModels, initialCacheState, ModelCache.isMemoryStale,
        ModelCache.refresh]
    have hload : (ModelCache.getModels memTtl fileTtl now1 none (Except.ok raw) false
        initialCacheState).state.memoryLoadedAt = now1 := by
      simp [ModelCache.getModels, initialCacheState, ModelCache.isMemoryStale,
        ModelCache.refresh]
    have hres1 : (ModelCache.getModels memTtl fileTtl now1 none (Except.ok raw) false
        initialCacheState).result
        = Except.ok (ModelCache.transformAndIndex fileTtl now1 raw).models := by
      simp [ModelCache.getModels, initialCacheState, ModelCache.isMemoryStale,
        ModelCache.refresh, ModelCache.modelsOf]
    have hstale2 : ModelCache.isMemoryStale memTtl now2
        (ModelCache.getModels memTtl fileTtl now1 none (Except.ok raw) false
          initialCacheState).state = false := by
      rw [ModelCache.isMemoryStale, hout1]
      simp only [hload]
      have e1 : (now1 == 0) = false := by
        simp only [beq_eq_false_iff_ne]
        omega
      simp [e1, h3]
    have hhit := getModels_memory_hit memTtl fileTtl now2 none fetch2 _ _ hout1 hstale2
    refine ⟨?_, hhit.1, ?_⟩
    · simp [ModelCache.getModels, initialCacheState, ModelCache.isMemoryStale,
        ModelCache.refresh]
    · rw [hhit.2.1, hres1]
  · intro s fd fetchRes now hd hfresh
    have hfs : ModelCache.isFileStale now fd = false := by
      simp [ModelCache.isFileStale, hfresh]
    simp [ModelCache.getModels, hd, ModelCache.isMemoryStale, hfs]
  · intro s fileData fetchRes now
    cases fetchRes with
    | ok raw => simp [ModelCache.getModels, ModelCache.refresh]
    | error e =>
      by_cases hs : s.data.isSome
      · simp [ModelCache.getModels, ModelCache.refresh, hs]
      · simp [ModelCache.getModels, ModelCache.refresh, hs]
  · intro s d fileData fetchRes now hd hstale
    exact getModels_stale_memory_refreshes memTtl fileTtl now fileData fetchRes s d hd hstale

/-- Witness for C7: concrete two-call run plus concrete file-adopt, force
and stale-memory cases. -/
theorem C7_cache_fetch_policy_witness :
    (ModelCache.getModels 300000 86400000 1000 none
        (Except.ok [{ model_id := "m1", name := "M1", type := "text-to-image",
                      base_price := 5 }]) false initialCacheState).fetches = 1 ∧
    (ModelCache.getModels 300000 86400000 200000 none (Except.error "down") false
        (ModelCache.getModels 300000 86400000 1000 none
          (Except.ok [{ model_id := "m1", name := "M1", type := "text-to-image",
                        base_price := 5 }]) false initialCacheState).state).fetches = 0 ∧
    (ModelCache.getModels 300000 86400000 987654 (some
        { version := 1, fetchedAt := 987000, ttlMs := 86400000, modelCount := 0,
          typeIndex := [], models := [] }) (Except.error "down") false
        initialCacheState).fetches = 0 ∧
    (ModelCache.getModels 300000 86400000 5 none (Except.ok []) true
        initialCacheState).fetches = 1 := by
  have h := C7_cache_fetch_policy 300000 86400000 1000 200000
    [{ model_id := "m1", name := "M1", type := "text-to-image", base_price := 5 }]
    (Except.error "down") (by omega) (by omega) (by omega)
  refine ⟨h.1.1, h.1.2.1, ?_, h.2.2.1 initialCacheState none (Except.ok []) 5⟩
  exact (h.2.1 initialCacheState
    { version := 1, fetchedAt := 987000, ttlMs := 86400000, modelCount := 0,
      typeIndex := [], models := [] } (Except.error "down") 987654 rfl (by decide)).1

/-- Claim C8: a live refresh failure is swallowed whenever any snapshot is
already held — a stale in-memory snapshot keeps being served, and a stale
file snapshot adopted just before the refresh is served as well — while
the error propagates exactly when no snapshot exists at all. -/
theorem C8_refresh_failure_policy (memTtl fileTtl : Nat) :
    (∀ (s : CacheState) (d : ModelCacheData) (fileData : Option ModelCacheData)
        (now : Nat) (e : String),
      s.data = some d → ModelCache.isMemoryStale memTtl now s = true →
      (ModelCache.getModels memTtl fileTtl now fileData (Except.error e) false s).result
        = Except.ok d.models ∧
      (ModelCache.getModels memTtl fileTtl now fileData (Except.error e) false s).state.data
        = some d) ∧
    (∀ (s : CacheState) (fd : ModelCacheData) (now : Nat) (e : String),
      s.data = none → ModelCache.isFileStale now fd = true →
      (ModelCache.getModels memTtl fileTtl now (some fd) (Except.error e) false s).result
        = Except.ok fd.models) ∧
    (∀ (s : CacheState) (now : Nat) (e : String),
      s.data = none →
      (ModelCache.getModels memTtl fileTtl now none (Except.error e) false s).result
        = Except.error e) := by
  refine ⟨?_, ?_, ?_⟩
  · intro s d fileData now e hd hstale
    constructor
    · simp [ModelCache.getModels, hd, hstale, ModelCache.refresh, ModelCache.modelsOf]
    · simp [ModelCache.getModels, hd, hstale, ModelCache.refresh]
  · intro s fd now e hd hfs
    simp [ModelCache.getModels, hd, hfs, ModelCache.refresh, ModelCache.modelsOf,
      ModelCache.isMemoryStale]
  · intro s now e hd
    simp [ModelCache.getModels, hd, ModelCache.refresh, ModelCache.isMemoryStale]

/-- Witness for C8: a refresh failure over a stale in-memory snapshot is
swallowed; over an empty cache it propagates. -/
theorem C8_refresh_failure_policy_witness :
    (ModelCache.getModels 300000 86400000 400000 none (Except.error "down") false
        { data := some { version := 1, fetchedAt := 0, ttlMs := 86400000, modelCount := 1,
                         typeIndex := [("text-to-image", ["m1"])],
                         models := [{ model_id := "m1", name := "M1", type := "text-to-image",
                                      base_price := 5 }] },
          memoryLoadedAt := 1, stats := initialStats }).result
      = Except.ok [{ model_id := "m1", name := "M1", type := "text-to-image",
                     base_price := 5 }] ∧
    (ModelCache.getModels 300000 86400000 400000 none (Except.error "down") false
        initialCacheState).result = Except.error "down" := by
  have h := C8_refresh_failure_policy 300000 86400000
  exact ⟨(h.1 _ _ none 400000 "down" rfl (by decide)).1,
    h.2.2 initialCacheState 400000 "down" rfl⟩

/-! ## Claim C9 -/

/-- Enrichment keeps the entry id. -/
theorem enrich_id (models : List CachedModel) (r : RecommendedModel) :
    (enrich models r).id = r.id := rfl

/-- Every member of a filter-then-enrich list whose filter requires
catalogue membership carries the catalogue price for its id. -/
theorem mem_enrichFilter {models : List CachedModel} {l : List RecommendedModel}
    {p : RecommendedModel → Bool} (hp : ∀ r, p r = true → mapHas models r.id = true)
    {r : RecommendedModel} (h : r ∈ (l.filter p).map (enrich models)) :
    ∃ m, mapGet models r.id = some m ∧ r.price = some m.base_price := by
  obtain ⟨r0, hr0, heq⟩ := List.mem_map.mp h
  subst heq
  have hp0 : mapHas models r0.id = true := hp r0 (List.of_mem_filter hr0)
  obtain ⟨m, hm⟩ := Option.isSome_iff_exists.mp hp0
  refine ⟨m, ?_, ?_⟩
  · simpa [enrich_id] using hm
  · simp [enrich, hm]

/-- Every kept popular entry carries the catalogue price for its id. -/
theorem mem_keptPopular {models : List CachedModel} {rec : List RecommendedModel}
    {r : RecommendedModel} (h : r ∈ keptPopular rec models) :
    ∃ m, mapGet models r.id = some m ∧ r.price = some m.base_price :=
  mem_enrichFilter (fun _ hr => hr) h

/-- Every padding entry carries the catalogue price for its id. -/
theorem mem_fallbackPadding {models : List CachedModel} {kept : List RecommendedModel}
    {r : RecommendedModel} (h : r ∈ fallbackPadding kept models) :
    ∃ m, mapGet models r.id = some m ∧ r.price = some m.base_price :=
  mem_enrichFilter (fun _ hr => ((Bool.and_eq_true _ _).mp hr).1) h

/-- Padding entries never duplicate an id already kept. -/
theorem fallbackPadding_disjoint {models : List CachedModel} {kept : List RecommendedModel} :
    ∀ r ∈ fallbackPadding kept models, ∀ f ∈ kept, f.id ≠ r.id := by
  intro r hr f hf
  obtain ⟨r0, hr0, heq⟩ := List.mem_map.mp hr
  subst heq
  have hflt := List.of_mem_filter hr0
  have hany : (kept.any fun f => f.id == r0.id) = false := by
    have := ((Bool.and_eq_true _ _).mp hflt).2
    simpa using this
  rw [List.any_eq_false] at hany
  have hfalse := hany f hf
  rw [enrich_id]
  intro hcontra
  exact hfalse (by simp [hcontra])

/-- Claim C9: with a live catalogue snapshot loaded, the recommended
accessor returns at most 10 entries; every returned entry's id is present
in the catalogue and its price equals the catalogue base_price for that
id (so popular entries absent from the catalogue are dropped); when fewer
than 3 popular entries survive the cross-reference the result is the
survivors padded with catalogue-present fallback entries whose ids are
disjoint from the survivors; otherwise it is just the survivors, capped
at 10. -/
theorem C9_recommended_models
    (popularModels : Option (List RecommendedModel)) (d : ModelCacheData) :
    (getRecommendedModels popularModels (some d)).length ≤ 10 ∧
    (∀ r ∈ getRecommendedModels popularModels (some d),
      ∃ m, mapGet d.models r.id = some m ∧ r.price = some m.base_price) ∧
    ((keptPopular (popularModels.getD FALLBACK_RECOMMENDED) d.models).length < 3 →
      getRecommendedModels popularModels (some d)
        = (keptPopular (popularModels.getD FALLBACK_RECOMMENDED) d.models
            ++ fallbackPadding (keptPopular (popularModels.getD FALLBACK_RECOMMENDED) d.models)
                d.models).take 10 ∧
      ∀ r ∈ fallbackPadding (keptPopular (popularModels.getD FALLBACK_RECOMMENDED) d.models)
          d.models,
        ∀ f ∈ keptPopular (popularModels.getD FALLBACK_RECOMMENDED) d.models, f.id ≠ r.id) ∧
    (¬ (keptPopular (popularModels.getD FALLBACK_RECOMMENDED) d.models).length < 3 →
      getRecommendedModels popularModels (some d)
        = (keptPopular (popularModels.getD FALLBACK_RECOMMENDED) d.models).take 10) := by
  refine ⟨?_, ?_, ?_, ?_⟩
  · rw [getRecommendedModels]
    split
    · simp [List.length_take]
    · simp [List.length_take]
  · intro r hr
    rw [getRecommendedModels] at hr
    split at hr
    · have hr2 := List.mem_of_mem_take hr
      rcases List.mem_append.mp hr2 with h | h
      · exact mem_keptPopular h
      · exact mem_fallbackPadding h
    · exact mem_keptPopular (List.mem_of_mem_take hr)
  · intro hlt
    refine ⟨?_, fallbackPadding_disjoint⟩
    rw [getRecommendedModels]
    simp only [hlt, if_pos]
  · intro hge
    rw [getRecommendedModels]
    simp [hge]

/-- Catalogue snapshot used in the C9 witness. -/
def c9data : ModelCacheData :=
  { version := 1, fetchedAt := 0, ttlMs := 86400000, modelCount := 1,
    typeIndex := [("text-to-image", ["bytedance/seedream-v4"])],
    models := [{ model_id := "bytedance/seedream-v4", name := "Seedream",
                 type := "text-to-image", base_price := 3 }] }

/-- Popular list used in the C9 witness: one catalogue id, one unknown. -/
def c9popular : List RecommendedModel :=
  [ { id := "bytedance/seedream-v4", type := "text-to-image", desc := "x" },
    { id := "zzz", type := "t", desc := "y" } ]

/-- Witness for C9: the unknown entry is dropped, the survivor carries the
catalogue price 3, and the result stays within the 10-entry cap. -/
theorem C9_recommended_models_witness :
    (getRecommendedModels (some c9popular) (some c9data)).length ≤ 10 ∧
    (∃ m, mapGet c9data.models
        (enrich c9data.models { id := "bytedance/seedream-v4", type := "text-to-image",
                                desc := "x" }).id = some m ∧
      (enrich c9data.models { id := "bytedance/seedream-v4", type := "text-to-image",
                              desc := "x" }).price = some m.base_price) := by
  have h := C9_recommended_models (some c9popular) c9data
  refine ⟨h.1, h.2.1 _ ?_⟩
  decide

end Wavespeed
